import Mathlib

/-!
Shallow embedding of `src/browser.py` (JarvisBrowser): the `Browser`
lifecycle / connection-strategy manager. Pure Python functions become Lean
functions; effectful steps (HTTP probes, process spawns, playwright
connect/launch calls, filesystem operations, sleeps) are recorded in an
explicit action trace, with their outcomes supplied by an environment of
oracles. Exceptions are modelled with `Except`.
-/

namespace JarvisBrowser

/-- Split a character list on a separator character (the shape of
`str.split`): `n` separators yield `n + 1` fields. -/
def splitOnChar (c : Char) : List Char → List (List Char)
  | [] => [[]]
  | x :: xs =>
    let r := splitOnChar c xs
    if x = c then [] :: r
    else
      match r with
      | [] => [[x]]
      | h :: t => (x :: h) :: t

/-- The `/`-separated components of a path. -/
def pathParts (p : String) : List String :=
  (splitOnChar '/' p.toList).map String.mk

/-- Model of `os.path.join(a, b)` (POSIX separator): an absolute `b` wins,
otherwise the parts are joined with a single slash. -/
def pyJoin (a b : String) : String :=
  if b.toList.head? = some '/' then b
  else if a = "" then b
  else if a.toList.getLast? = some '/' then a ++ b
  else a ++ "/" ++ b

/-- Model of `os.path.dirname`: everything before the last separator.
(On inputs like "/Cookies" Python returns "/" where this returns ""; every
use in the source immediately strips leading separators, so the two agree
on all paths the code builds.) -/
def dirname (p : String) : String :=
  String.intercalate "/" (pathParts p).dropLast

/-- Model of `os.path.basename`: the last path component. -/
def basename (p : String) : String :=
  ((pathParts p).getLast?).getD ""

/-- Model of `str.lstrip(os.sep)`: drop leading separators. -/
def lstripSep (s : String) : String :=
  String.mk (s.toList.dropWhile (· = '/'))

/-- Fuelled worker for `pyReplace`: replace each non-overlapping
occurrence of `pat`, left to right (the fuel bounds the number of steps;
one character is consumed per step, so the input length suffices). -/
def replaceCharsF (pat rep : List Char) : Nat → List Char → List Char
  | 0, l => l
  | _ + 1, [] => []
  | fuel + 1, x :: xs =>
    if pat.isPrefixOf (x :: xs) ∧ pat ≠ [] then
      rep ++ replaceCharsF pat rep fuel (xs.drop (pat.length - 1))
    else x :: replaceCharsF pat rep fuel xs

/-- Model of Python `s.replace(pat, rep)` for a non-empty pattern (the
only way the source uses it: stripping the source-profile prefix). -/
def pyReplace (s pat rep : String) : String :=
  String.mk (replaceCharsF pat.toList rep.toList s.toList.length s.toList)

/-- Python truthiness of an optional string field (`if self.config.cdp_url:`):
`None` and the empty string are falsy. -/
def truthy : Option String → Bool
  | none => false
  | some s => s ≠ ""

/-- `BrowserConfig` dataclass (fields the lifecycle logic reads; the proxy
and nested context configuration are opaque to this core and omitted). -/
structure BrowserConfig where
  headless : Bool := false
  disable_security : Bool := true
  extra_chromium_args : List String := []
  chrome_instance_path : Option String := none
  wss_url : Option String := none
  cdp_url : Option String := none
  browser_type : String := "chromium"
  user_data_dir : Option String := none
  use_existing_browser : Bool := false
  force_keep_browser_alive : Bool := false
  deriving Repr, DecidableEq

/-- `self.disable_security_args`, computed in `Browser.__init__` from
`config.disable_security`. -/
def disable_security_args (cfg : BrowserConfig) : List String :=
  if cfg.disable_security then
    ["--disable-web-security",
     "--disable-site-isolation-trials",
     "--disable-features=IsolateOrigins,site-per-process"]
  else []

/-- The fixed `launch_args` list built at the top of `_setup_standard_browser`. -/
def standardLaunchArgs : List String :=
  ["--no-sandbox",
   "--disable-blink-features=AutomationControlled",
   "--disable-infobars",
   "--disable-background-timer-throttling",
   "--disable-popup-blocking",
   "--disable-backgrounding-occluded-windows",
   "--disable-renderer-backgrounding",
   "--disable-window-activation",
   "--disable-focus-on-load",
   "--no-first-run",
   "--no-default-browser-check",
   "--no-startup-window",
   "--window-position=0,0"]

/-- Exceptions the lifecycle code can raise or propagate. -/
inductive Exc where
  /-- `ValueError` (required endpoint/path missing). -/
  | valueError (msg : String)
  /-- An exception from `requests.get` other than `requests.ConnectionError`
  (e.g. a read timeout); the probe loops do not catch it. -/
  | probeError
  /-- A failure of a playwright `connect_over_cdp` / `connect` call. -/
  | connectFailed
  /-- `RuntimeError` (the fatal "close all existing instances" error). -/
  | runtimeError (msg : String)
  /-- `TimeoutError` (Edge poll budget exhausted). -/
  | timeoutError (msg : String)
  /-- `FileNotFoundError` (no known Edge install path exists). -/
  | fileNotFound (msg : String)
  /-- `OSError` (unsupported operating system). -/
  | osError (msg : String)
  deriving Repr, DecidableEq

/-- Outcome of one `requests.get('http://localhost:9222/json/version', timeout=2)`. -/
inductive ProbeResult where
  /-- A response with the given status code. -/
  | ok (status : Nat)
  /-- `requests.ConnectionError` (connection refused: browser not reachable). -/
  | connError
  /-- Any other exception from the probe (e.g. `requests.Timeout`). -/
  | otherError
  deriving Repr, DecidableEq

/-- Abstract playwright browser handle returned by a setup path. -/
inductive PWBrowser where
  /-- Result of `connect_over_cdp` / `connect` to the given endpoint. -/
  | connected (url : String)
  /-- Result of a `launch` call. -/
  | launched
  deriving Repr, DecidableEq

/-- Observable effects of the setup code, in program order. -/
inductive Action where
  /-- `playwright.chromium.connect_over_cdp(endpoint_url=url)`. -/
  | connectCDP (url : String)
  /-- `playwright.chromium.connect(wss_url)`. -/
  | connectWSS (url : String)
  /-- One HTTP GET of `http://localhost:9222/json/version`. -/
  | probe
  /-- `subprocess.Popen(cmd)`. -/
  | spawn (cmd : List String)
  /-- `asyncio.sleep(secs)` or `time.sleep(secs)`. -/
  | sleep (secs : Nat)
  /-- A playwright `launch` via the named launcher, with optional
  `executable_path` and argument list. -/
  | launch (kind : String) (exe : Option String) (args : List String)
  /-- `browser.new_context(storage_state=...)`. -/
  | newContext (storageState : Option String)
  /-- `tempfile.TemporaryDirectory(prefix="edge_profile_")` yielding `name`. -/
  | mkTempDir (name : String)
  /-- `os.makedirs(p, exist_ok=True)`. -/
  | makedirs (p : String)
  /-- `shutil.copy2(src, dst)` (attempted; failure is logged). -/
  | copyFile (src dst : String)
  /-- `shutil.copytree(src, dst, dirs_exist_ok=True)` (attempted). -/
  | copyTree (src dst : String)
  /-- A swallowed failure logged at warning/debug level. -/
  | logWarn (msg : String)
  deriving Repr, DecidableEq

/-- Environment of oracles standing for the outside world. -/
structure Env where
  /-- Result of the n-th probe of the debug endpoint in one setup call
  (probe 0 is the initial reuse check). -/
  probe : Nat → ProbeResult
  /-- Whether a `connect_over_cdp` call in this setup call succeeds. -/
  cdpOk : Bool
  /-- Whether a WebSocket `connect` call succeeds. -/
  wssOk : Bool
  /-- `platform.system()`. -/
  system : String
  /-- `os.path.exists`. -/
  pathExists : String → Bool
  /-- `os.path.isdir`. -/
  isDir : String → Bool
  /-- Whether `shutil.copy2` from the given source succeeds. -/
  copyOk : String → Bool
  /-- Whether `shutil.copytree` from the given source succeeds. -/
  treeOk : String → Bool
  /-- Whether `os.makedirs(p, exist_ok=True)` succeeds. -/
  mkdirOk : String → Bool
  /-- Name of the temporary directory `tempfile.TemporaryDirectory` creates. -/
  tempName : String
  /-- `glob.glob(os.path.join(dir, '**', 'Cookies'), recursive=True)`. -/
  glob : String → List String

/-- The fixed local debugging endpoint. -/
def debugEndpoint : String := "http://localhost:9222"

/-- Known Edge install paths probed on Windows. -/
def windowsEdgePaths : List String :=
  ["C:\\Program Files (x86)\\Microsoft\\Edge\\Application\\msedge.exe",
   "C:\\Program Files\\Microsoft\\Edge\\Application\\msedge.exe"]

/-- The fixed macOS Edge app-bundle path. -/
def darwinEdgePath : String :=
  "/Applications/Microsoft Edge.app/Contents/MacOS/Microsoft Edge"

/-- Known Edge install paths probed on Linux. -/
def linuxEdgePaths : List String :=
  ["/usr/bin/microsoft-edge",
   "/usr/bin/microsoft-edge-stable",
   "/opt/microsoft/msedge/msedge"]

/-- Error message of the Edge `FileNotFoundError`. -/
def edgeNotFoundMsg : String :=
  "Microsoft Edge executable not found. Please provide the path explicitly."

/-- `Browser._get_edge_path`: OS-specific Edge executable discovery.
On Windows and Linux the known paths are probed in order and the first
existing one is returned; on Darwin the fixed app-bundle path is returned
with no existence check; any other system raises `OSError`. -/
def get_edge_path (env : Env) : Except Exc String :=
  if env.system = "Windows" then
    match windowsEdgePaths.find? env.pathExists with
    | some p => .ok p
    | none => .error (.fileNotFound edgeNotFoundMsg)
  else if env.system = "Darwin" then
    .ok darwinEdgePath
  else if env.system = "Linux" then
    match linuxEdgePaths.find? env.pathExists with
    | some p => .ok p
    | none => .error (.fileNotFound edgeNotFoundMsg)
  else
    .error (.osError ("Unsupported operating system: " ++ env.system))

instance (α β : Type) [DecidableEq α] [DecidableEq β] :
    DecidableEq (Except α β) := fun a b =>
  match a, b with
  | .error x, .error y =>
    if h : x = y then .isTrue (by rw [h]) else .isFalse (by simp [h])
  | .error _, .ok _ => .isFalse (by simp)
  | .ok _, .error _ => .isFalse (by simp)
  | .ok x, .ok y =>
    if h : x = y then .isTrue (by rw [h]) else .isFalse (by simp [h])

/-- Result of one setup path: the returned browser (or the propagated
exception), the action trace, and the `self.temp_dir` / `self.browser_context`
fields the path may have set on the manager. -/
structure SetupOut where
  result : Except Exc PWBrowser
  trace : List Action
  temp_dir : Option String := none
  contextCreated : Bool := false
  deriving Repr, DecidableEq

/-- `Browser._setup_cdp`: requires a truthy CDP URL, then one
`connect_over_cdp` to it. -/
def setup_cdp (env : Env) (cfg : BrowserConfig) : SetupOut :=
  if ¬ truthy cfg.cdp_url then
    { result := .error (.valueError "CDP URL is required"), trace := [] }
  else
    let u := cfg.cdp_url.getD ""
    { result := if env.cdpOk then .ok (.connected u) else .error .connectFailed,
      trace := [.connectCDP u] }

/-- `Browser._setup_wss`: requires a truthy WSS URL, then one `connect` to it. -/
def setup_wss (env : Env) (cfg : BrowserConfig) : SetupOut :=
  if ¬ truthy cfg.wss_url then
    { result := .error (.valueError "WSS URL is required"), trace := [] }
  else
    let u := cfg.wss_url.getD ""
    { result := if env.wssOk then .ok (.connected u) else .error .connectFailed,
      trace := [.connectWSS u] }

/-- Outcome of a probe/poll loop. -/
inductive LoopRes where
  /-- A probe returned status 200 and the loop broke. -/
  | found
  /-- The attempt budget was exhausted without a 200 response. -/
  | exhausted
  /-- A probe raised something other than `requests.ConnectionError`,
  which the loop does not catch. -/
  | raised
  deriving Repr, DecidableEq

/-- The 10-attempt poll loop of `_setup_browser_with_instance`: each
iteration probes once; a 200 breaks; any other outcome that is not an
uncaught exception is followed by `await asyncio.sleep(1)` and a retry.
`n` is the remaining attempt budget, `idx` the global probe index. -/
def instLoop (env : Env) : Nat → Nat → LoopRes × List Action
  | 0, _ => (.exhausted, [])
  | n + 1, idx =>
    match env.probe idx with
    | .otherError => (.raised, [.probe])
    | .ok s =>
      if s = 200 then (.found, [.probe])
      else
        let (r, tr) := instLoop env n (idx + 1)
        (r, .probe :: .sleep 1 :: tr)
    | .connError =>
      let (r, tr) := instLoop env n (idx + 1)
      (r, .probe :: .sleep 1 :: tr)

/-- Message of the `RuntimeError` raised when the final CDP attach of the
local-executable path fails. -/
def chromeRestartMsg : String :=
  " To start chrome in Debug mode, you need to close all existing Chrome instances and try again otherwise we can not connect to the instance."

/-- The spawn-then-poll-then-attach tail of `_setup_browser_with_instance`:
spawn the executable with remote debugging, poll up to 10 times, then attempt
a final `connect_over_cdp` regardless of the poll outcome; a failure of that
attach is re-raised as the fatal `RuntimeError`. -/
def instSpawn (env : Env) (cfg : BrowserConfig) (path : String)
    (pre : List Action) : SetupOut :=
  let cmd := path :: "--remote-debugging-port=9222" :: cfg.extra_chromium_args
  let (r, tr) := instLoop env 10 1
  match r with
  | .raised => { result := .error .probeError, trace := pre ++ .spawn cmd :: tr }
  | _ =>
    { result :=
        if env.cdpOk then .ok (.connected debugEndpoint)
        else .error (.runtimeError chromeRestartMsg),
      trace := pre ++ .spawn cmd :: tr ++ [.connectCDP debugEndpoint] }

/-- `Browser._setup_browser_with_instance`: requires a truthy executable
path; probe the debug endpoint once; on a 200 attach over CDP without
spawning; on `ConnectionError` or a non-200 response fall through to
spawn/poll/attach; any other probe exception propagates. -/
def setup_browser_with_instance (env : Env) (cfg : BrowserConfig) : SetupOut :=
  if ¬ truthy cfg.chrome_instance_path then
    { result := .error (.valueError "Chrome instance path is required"), trace := [] }
  else
    let path := cfg.chrome_instance_path.getD ""
    match env.probe 0 with
    | .otherError => { result := .error .probeError, trace := [.probe] }
    | .ok s =>
      if s = 200 then
        { result :=
            if env.cdpOk then .ok (.connected debugEndpoint)
            else .error .connectFailed,
          trace := [.probe, .connectCDP debugEndpoint] }
      else instSpawn env cfg path [.probe]
    | .connError => instSpawn env cfg path [.probe]

/-- The 30-attempt poll loop of `_connect_to_existing_edge`: each iteration
probes once; a 200 breaks; `time.sleep(1)` happens only inside the
`except ConnectionError` handler, so a non-200 response retries immediately
with no sleep; exhaustion reaches the `for`-`else` and signals a timeout. -/
def edgeLoop (env : Env) : Nat → Nat → LoopRes × List Action
  | 0, _ => (.exhausted, [])
  | n + 1, idx =>
    match env.probe idx with
    | .otherError => (.raised, [.probe])
    | .ok s =>
      if s = 200 then (.found, [.probe])
      else
        let (r, tr) := edgeLoop env n (idx + 1)
        (r, .probe :: tr)
    | .connError =>
      let (r, tr) := edgeLoop env n (idx + 1)
      (r, .probe :: .sleep 1 :: tr)

/-- Message of the `TimeoutError` raised when Edge does not come up in time. -/
def edgeTimeoutMsg : String := "Failed to start Edge browser in time"

/-- The launch-then-poll-then-attach tail of `_connect_to_existing_edge`:
discover the Edge executable, spawn it against the configured user-data
directory, poll up to 30 times; exhaustion raises `TimeoutError`; on a 200
attach over CDP. (The call site guarantees `user_data_dir` is set; `getD`
stands for the string concatenation in the source.) -/
def edgeSpawnAndPoll (env : Env) (cfg : BrowserConfig)
    (pre : List Action) : SetupOut :=
  match get_edge_path env with
  | .error e => { result := .error e, trace := pre }
  | .ok edge_path =>
    let cmd := [edge_path, "--remote-debugging-port=9222",
                "--user-data-dir=" ++ cfg.user_data_dir.getD "", "--no-first-run"]
    let (r, tr) := edgeLoop env 30 1
    match r with
    | .raised => { result := .error .probeError, trace := pre ++ .spawn cmd :: tr }
    | .exhausted =>
      { result := .error (.timeoutError edgeTimeoutMsg),
        trace := pre ++ .spawn cmd :: tr }
    | .found =>
      { result :=
          if env.cdpOk then .ok (.connected debugEndpoint)
          else .error .connectFailed,
        trace := pre ++ .spawn cmd :: tr ++ [.connectCDP debugEndpoint] }

/-- `Browser._connect_to_existing_edge`: probe the debug endpoint once; on a
200 attach over CDP to the running instance; on `ConnectionError` or a
non-200 response fall through to find-or-launch; any other probe exception
propagates. -/
def connect_to_existing_edge (env : Env) (cfg : BrowserConfig) : SetupOut :=
  match env.probe 0 with
  | .otherError => { result := .error .probeError, trace := [.probe] }
  | .ok s =>
    if s = 200 then
      { result :=
          if env.cdpOk then .ok (.connected debugEndpoint)
          else .error .connectFailed,
        trace := [.probe, .connectCDP debugEndpoint] }
    else edgeSpawnAndPoll env cfg [.probe]
  | .connError => edgeSpawnAndPoll env cfg [.probe]

/-- The candidate cookie files probed under a source profile in
`_copy_cookies_from_profile`. -/
def cookieSources (src : String) : List String :=
  [pyJoin (pyJoin src "Default") "Cookies",
   pyJoin (pyJoin (pyJoin src "Default") "Network") "Cookies",
   pyJoin src "Cookies"]

/-- The candidate local-storage directories probed under a source profile. -/
def localStoragePaths (src : String) : List String :=
  [pyJoin (pyJoin src "Default") "Local Storage",
   pyJoin src "Local Storage"]

/-- One iteration of the cookie-file loop: skip a missing source; otherwise
`os.makedirs(target_dir, exist_ok=True)` (UNGUARDED — its failure
propagates) and then an attempted `shutil.copy2` whose failure is caught
and logged. -/
def copyCookieFile (env : Env) (src tgt fp : String) :
    Except Exc Unit × List Action :=
  if env.pathExists fp then
    let target_dir := pyJoin tgt (lstripSep (dirname (pyReplace fp src "")))
    if env.mkdirOk target_dir then
      let dst := pyJoin target_dir (basename fp)
      if env.copyOk fp then (.ok (), [.makedirs target_dir, .copyFile fp dst])
      else
        (.ok (), [.makedirs target_dir, .copyFile fp dst,
                  .logWarn "Failed to copy cookies"])
    else (.error (.osError "makedirs failed"), [.makedirs target_dir])
  else (.ok (), [])

/-- The cookie-file loop over the candidate list, aborting on a propagated
exception. -/
def copyCookieFiles (env : Env) (src tgt : String) :
    List String → Except Exc Unit × List Action
  | [] => (.ok (), [])
  | fp :: rest =>
    let (r, tr) := copyCookieFile env src tgt fp
    match r with
    | .error e => (.error e, tr)
    | .ok () =>
      let (r2, tr2) := copyCookieFiles env src tgt rest
      (r2, tr ++ tr2)

/-- One iteration of the local-storage loop: skip a source that is missing
or not a directory; otherwise `makedirs` and `copytree` both sit inside a
`try` whose failures are caught and logged. -/
def copyLocalStorage (env : Env) (src tgt ls : String) : List Action :=
  if env.pathExists ls ∧ env.isDir ls then
    let target_ls := pyJoin tgt (lstripSep (pyReplace ls src ""))
    if env.mkdirOk (dirname target_ls) then
      if env.treeOk ls then [.makedirs (dirname target_ls), .copyTree ls target_ls]
      else
        [.makedirs (dirname target_ls), .copyTree ls target_ls,
         .logWarn "Failed to copy local storage"]
    else [.makedirs (dirname target_ls), .logWarn "Failed to copy local storage"]
  else []

/-- `Browser._copy_cookies_from_profile`: ensure the target profile
directory exists (UNGUARDED `os.makedirs` — its failure propagates), copy
each existing known cookie file (copy failures logged), then copy each
existing known local-storage directory (all failures logged). -/
def copy_cookies_from_profile (env : Env) (src tgt : String) :
    Except Exc Unit × List Action :=
  if env.mkdirOk tgt then
    let (r, tr) := copyCookieFiles env src tgt (cookieSources src)
    match r with
    | .error e => (.error e, .makedirs tgt :: tr)
    | .ok () =>
      (.ok (),
       .makedirs tgt :: tr ++
         ((localStoragePaths src).map (copyLocalStorage env src tgt)).flatten)
  else (.error (.osError "makedirs failed"), [.makedirs tgt])

/-- `Browser._get_storage_state_path`: glob for `Cookies` files under the
profile directory; return the directory of the first hit, else `None`. -/
def get_storage_state_path (env : Env) (profile_dir : String) : Option String :=
  match env.glob profile_dir with
  | [] => none
  | f :: _ => some (dirname f)

/-- `Browser._setup_standard_browser`: for the `msedge` kind, dispatch to
the Edge-reuse path when `use_existing_browser` and a user-data directory
are both set; otherwise discover the Edge executable and, with a user-data
directory, build a temporary profile, best-effort copy cookies into it,
launch Edge (note: WITHOUT a `--user-data-dir` argument and WITHOUT the
disable-security flags) and open a context from any discovered
storage-state path; without a user-data directory, launch Edge with the
disable-security flags against a disposable temp profile. Any other kind
launches via the launcher named by `browser_type` (`getattr` defaulting to
chromium). -/
def setup_standard_browser (env : Env) (cfg : BrowserConfig) : SetupOut :=
  if cfg.browser_type = "msedge" then
    if cfg.use_existing_browser ∧ truthy cfg.user_data_dir then
      connect_to_existing_edge env cfg
    else
      match get_edge_path env with
      | .error e => { result := .error e, trace := [] }
      | .ok edge_path =>
        if truthy cfg.user_data_dir then
          let udd := cfg.user_data_dir.getD ""
          let tmp := env.tempName
          let (cr, ctr) := copy_cookies_from_profile env udd tmp
          match cr with
          | .error e =>
            { result := .error e, trace := .mkTempDir tmp :: ctr,
              temp_dir := some tmp }
          | .ok () =>
            let args := standardLaunchArgs ++ cfg.extra_chromium_args ++
              ["--no-private-window", "--no-incognito"]
            { result := .ok .launched,
              trace := .mkTempDir tmp :: ctr ++
                [.launch "chromium" (some edge_path) args,
                 .newContext (get_storage_state_path env tmp)],
              temp_dir := some tmp,
              contextCreated := true }
        else
          let tmp := env.tempName
          let args := (standardLaunchArgs ++ disable_security_args cfg) ++
            cfg.extra_chromium_args ++ ["--user-data-dir=" ++ tmp]
          { result := .ok .launched,
            trace := [.mkTempDir tmp, .launch "chromium" (some edge_path) args],
            temp_dir := some tmp }
  else
    let launcher :=
      if cfg.browser_type = "chromium" ∨ cfg.browser_type = "firefox" ∨
          cfg.browser_type = "webkit" then
        cfg.browser_type
      else "chromium"
    { result := .ok .launched,
      trace := [.launch launcher none
        (standardLaunchArgs ++ disable_security_args cfg ++
         cfg.extra_chromium_args)] }

/-- `Browser._setup_browser`: exclusive strategy dispatch — CDP endpoint
first, then WebSocket, then explicit executable, else standard launch. The
surrounding `try` only logs and re-raises, so it preserves the outcome. -/
def setup_browser (env : Env) (cfg : BrowserConfig) : SetupOut :=
  if truthy cfg.cdp_url then setup_cdp env cfg
  else if truthy cfg.wss_url then setup_wss env cfg
  else if truthy cfg.chrome_instance_path then setup_browser_with_instance env cfg
  else setup_standard_browser env cfg

/-- `Browser.get_playwright_browser`: return the cached browser-process
handle when present (no effects), else initialize via `_init`, whose work
is `_setup_browser`. -/
def get_playwright_browser (env : Env) (cfg : BrowserConfig)
    (cached : Option PWBrowser) : SetupOut :=
  match cached with
  | some b => { result := .ok b, trace := [] }
  | none => setup_browser env cfg

/-- The four owned handles of the manager (`self.playwright`,
`self.playwright_browser`, `self.browser_context`, `self.temp_dir`),
abstracted to optional handle ids. -/
structure MgrState where
  playwright : Option Nat := none
  playwright_browser : Option Nat := none
  browser_context : Option Nat := none
  temp_dir : Option Nat := none
  deriving Repr, DecidableEq

/-- The manager state with every handle absent. -/
def MgrState.empty : MgrState := {}

/-- Fault oracle for the individual teardown steps of `close()`. -/
structure CloseEnv where
  ctxCloseFails : Bool := false
  browserCloseFails : Bool := false
  pwStopFails : Bool := false
  tmpCleanupFails : Bool := false
  deriving Repr, DecidableEq

/-- Teardown steps attempted by `close()`, in program order. -/
inductive CloseAction where
  /-- `await self.browser_context.close()`. -/
  | ctxClose
  /-- `await self.playwright_browser.close()`. -/
  | browserClose
  /-- `await self.playwright.stop()`. -/
  | pwStop
  /-- `self.temp_dir.cleanup()`. -/
  | tmpCleanup
  deriving Repr, DecidableEq

/-- Result of a `close()` call: the manager state afterwards, the teardown
steps that were attempted, and whether the call raised. -/
structure CloseOut where
  state : MgrState
  actions : List CloseAction
  raised : Bool
  deriving Repr, DecidableEq

/-- The body of `close()`'s outer `try` (with keep-alive false): the four
steps run in sequence; the first three are NOT individually guarded, so an
exception aborts the remaining steps (it is then caught by the outer
`except`); only `temp_dir.cleanup()` sits in its own inner `try` whose
failure is merely logged. Returns the attempted steps and whether the body
raised. -/
def closeBody (env : CloseEnv) (s : MgrState) : List CloseAction × Bool :=
  let (a1, f1) :=
    if s.browser_context.isSome then ([CloseAction.ctxClose], env.ctxCloseFails)
    else ([], false)
  if f1 then (a1, true)
  else
    let (a2, f2) :=
      if s.playwright_browser.isSome then
        ([CloseAction.browserClose], env.browserCloseFails)
      else ([], false)
    if f2 then (a1 ++ a2, true)
    else
      let (a3, f3) :=
        if s.playwright.isSome then ([CloseAction.pwStop], env.pwStopFails)
        else ([], false)
      if f3 then (a1 ++ a2 ++ a3, true)
      else
        let a4 := if s.temp_dir.isSome then [CloseAction.tmpCleanup] else []
        (a1 ++ a2 ++ a3 ++ a4, false)

/-- `Browser.close`: with `_force_keep_browser_alive` the guarded body does
nothing; otherwise the body runs and any exception it raises is caught by
the outer `except` and logged. The `finally` block then sets all four
handles to `None` in every case, so the call itself never raises. -/
def close (env : CloseEnv) (force_keep_browser_alive : Bool)
    (s : MgrState) : CloseOut :=
  let acts :=
    if force_keep_browser_alive then []
    else (closeBody env s).1
  { state := MgrState.empty, actions := acts, raised := false }

/-- Recognizer for sleep actions. -/
def isSleep : Action → Bool
  | .sleep _ => true
  | _ => false

/-- Recognizer for probe actions. -/
def isProbe : Action → Bool
  | .probe => true
  | _ => false

/-- Recognizer for process-spawn actions. -/
def isSpawn : Action → Bool
  | .spawn _ => true
  | _ => false

/-- Argument lists of the launch actions in a trace. -/
def launchArgLists (tr : List Action) : List (List String) :=
  tr.filterMap fun a =>
    match a with
    | .launch _ _ args => some args
    | _ => none

/-- Trace of `n` probe attempts each followed by a 1-second sleep. -/
def probeSleeps : Nat → List Action
  | 0 => []
  | n + 1 => .probe :: .sleep 1 :: probeSleeps n

/-- Trace of `n` back-to-back probe attempts with no sleeps. -/
def probesOnly : Nat → List Action
  | 0 => []
  | n + 1 => .probe :: probesOnly n

/-- A Linux environment with exactly one Edge install path present,
an unreachable debug endpoint, and an empty source profile. -/
def envE5 : Env where
  probe := fun _ => .connError
  cdpOk := true
  wssOk := true
  system := "Linux"
  pathExists := fun p => p = "/usr/bin/microsoft-edge"
  isDir := fun _ => false
  copyOk := fun _ => true
  treeOk := fun _ => true
  mkdirOk := fun _ => true
  tempName := "TMPPROF"
  glob := fun _ => []

/-- An msedge configuration with a user-data directory and
`use_existing_browser` off. -/
def cfgE5 : BrowserConfig where
  browser_type := "msedge"
  user_data_dir := some "/home/user/edge"
  use_existing_browser := false

/-- A configuration with only a CDP endpoint. -/
def cfgCDP : BrowserConfig where
  cdp_url := some "http://remote:9222"

/-- A configuration with only a WebSocket endpoint. -/
def cfgWSS : BrowserConfig where
  wss_url := some "ws://remote:3000"

/-- A configuration with only an explicit executable path. -/
def cfgInst : BrowserConfig where
  chrome_instance_path := some "/usr/bin/chrome"

/-- Claim C1: connection-strategy selection is exclusive with fixed
priority. With a (truthy) CDP endpoint, initialization attempts exactly
one CDP connection to that endpoint and nothing else; with only a
WebSocket endpoint, exactly one WebSocket connection; with neither remote
endpoint, the local-executable path is taken iff an explicit executable
path is configured, else the standard-launch path. -/
theorem strategy_selection_exclusive (env : Env) (cfg : BrowserConfig) :
    (∀ u, cfg.cdp_url = some u → u ≠ "" →
      (get_playwright_browser env cfg none).trace = [Action.connectCDP u]) ∧
    (truthy cfg.cdp_url = false → ∀ w, cfg.wss_url = some w → w ≠ "" →
      (get_playwright_browser env cfg none).trace = [Action.connectWSS w]) ∧
    (truthy cfg.cdp_url = false → truthy cfg.wss_url = false →
      (truthy cfg.chrome_instance_path = true →
        get_playwright_browser env cfg none = setup_browser_with_instance env cfg) ∧
      (truthy cfg.chrome_instance_path = false →
        get_playwright_browser env cfg none = setup_standard_browser env cfg)) := by
  refine ⟨?_, ?_, ?_⟩
  · intro u hu hne
    have hct : truthy cfg.cdp_url = true := by simp [truthy, hu, hne]
    simp [get_playwright_browser, setup_browser, setup_cdp, hct, hu, truthy, hne]
  · intro hc w hw hne
    cases hcd : cfg.cdp_url with
    | none =>
      simp [get_playwright_browser, setup_browser, setup_wss, truthy, hcd, hw, hne]
    | some s =>
      rw [hcd] at hc
      simp [truthy] at hc
      simp [get_playwright_browser, setup_browser, setup_wss, truthy, hcd, hc,
        hw, hne]
  · intro hc hw
    constructor <;> intro hp <;>
      simp [get_playwright_browser, setup_browser, hc, hw, hp]

/-- Closed instance of the strategy-selection theorem at concrete
configurations on each of the four paths. -/
theorem strategy_selection_exclusive_witness :
    (get_playwright_browser envE5 cfgCDP none).trace =
      [Action.connectCDP "http://remote:9222"] ∧
    (get_playwright_browser envE5 cfgWSS none).trace =
      [Action.connectWSS "ws://remote:3000"] ∧
    get_playwright_browser envE5 cfgInst none =
      setup_browser_with_instance envE5 cfgInst ∧
    get_playwright_browser envE5 cfgE5 none =
      setup_standard_browser envE5 cfgE5 :=
  ⟨(strategy_selection_exclusive envE5 cfgCDP).1 _ rfl (by decide),
   (strategy_selection_exclusive envE5 cfgWSS).2.1 (by decide) _ rfl (by decide),
   ((strategy_selection_exclusive envE5 cfgInst).2.2 (by decide) (by decide)).1
     (by decide),
   ((strategy_selection_exclusive envE5 cfgE5).2.2 (by decide) (by decide)).2
     (by decide)⟩

/-- Claim C2: with keep-alive false, `close()` never raises and leaves
every owned handle absent, whatever the individual steps did; a second
`close()` performs no teardown step and never raises. -/
theorem close_idempotent_clears_handles (env env2 : CloseEnv) (s : MgrState) :
    (close env false s).raised = false ∧
    (close env false s).state = MgrState.empty ∧
    (close env2 false (close env false s).state).actions = [] ∧
    (close env2 false (close env false s).state).raised = false := by
  exact ⟨rfl, rfl, rfl, rfl⟩

/-- A manager state with all four handles live. -/
def sFull : MgrState where
  playwright := some 1
  playwright_browser := some 2
  browser_context := some 3
  temp_dir := some 4

/-- A fault oracle under which closing the browser context throws. -/
def envCtxFail : CloseEnv where
  ctxCloseFails := true

/-- A fault oracle under which every teardown step succeeds. -/
def envOK : CloseEnv := {}

/-- Counterexample to claim C3: when closing the browser context throws
and a temporary directory exists, `close()` does NOT proceed through the
remaining steps — in particular the temp-directory removal is never
attempted (the only step executed is the context close). -/
theorem close_skips_temp_cleanup_cex :
    sFull.temp_dir = some 4 ∧
    (close envCtxFail false sFull).actions = [CloseAction.ctxClose] ∧
    CloseAction.tmpCleanup ∉ (close envCtxFail false sFull).actions := by
  refine ⟨rfl, rfl, ?_⟩
  decide

/-- Claim C3 as amended: an exception in any teardown step is caught by
close's single outer handler (so `close()` never raises) and all handles
are still cleared by the final step; but teardown does NOT proceed through
the remaining steps — an exception while closing the context skips the
browser close, the engine stop and the temp-directory removal. Only the
temp-directory cleanup is individually guarded: when the three earlier
steps succeed it is always attempted, even if it itself fails. -/
theorem close_guard_structure (env : CloseEnv) (s : MgrState) :
    (close env false s).raised = false ∧
    (close env false s).state = MgrState.empty ∧
    (env.ctxCloseFails = true → s.browser_context.isSome = true →
      (close env false s).actions = [CloseAction.ctxClose]) ∧
    (env.ctxCloseFails = false → env.browserCloseFails = false →
      env.pwStopFails = false → s.temp_dir.isSome = true →
      CloseAction.tmpCleanup ∈ (close env false s).actions) := by
  refine ⟨rfl, rfl, ?_, ?_⟩
  · intro hf hc
    simp [close, closeBody, hf, hc]
  · intro h1 h2 h3 h4
    cases hbc : s.browser_context.isSome <;>
      cases hpb : s.playwright_browser.isSome <;>
      cases hpw : s.playwright.isSome <;>
      simp [close, closeBody, h1, h2, h3, h4, hbc, hpb, hpw]

/-- Closed instance of the amended close-guard theorem: on the failing
oracle only the context close is attempted; on the clean oracle the
temp-directory cleanup is reached. -/
theorem close_guard_structure_witness :
    (close envCtxFail false sFull).actions = [CloseAction.ctxClose] ∧
    CloseAction.tmpCleanup ∈ (close envOK false sFull).actions :=
  ⟨(close_guard_structure envCtxFail sFull).2.2.1 rfl rfl,
   (close_guard_structure envOK sFull).2.2.2 rfl rfl rfl rfl⟩

/-- Counterexample to claim C4: with force-keep-alive set, `close()` does
skip every teardown step, but the `finally` block still resets all four
handles to `None`, so the manager state is NOT left unchanged. -/
theorem close_force_keep_alive_cex :
    (close envOK true sFull).actions = [] ∧
    (close envOK true sFull).state ≠ sFull ∧
    (close envOK true sFull).state.playwright_browser = none := by
  refine ⟨rfl, ?_, rfl⟩
  decide

/-- Claim C4 as amended: with force-keep-alive set, `close()` performs no
teardown action and never raises, but its final step still clears all four
handle fields to `None`. -/
theorem close_force_keep_alive_clears (env : CloseEnv) (s : MgrState) :
    close env true s =
      { state := MgrState.empty, actions := [], raised := false } := rfl

set_option maxRecDepth 16000 in
/-- Counterexample to claim C5: in the msedge standard-launch path with a
user-data directory, the launch's argument list contains NO
`--user-data-dir` argument (the temp profile is never passed to the
process) and NO disable-security flag, although `disable_security` is on. -/
theorem edge_profile_launch_cex :
    cfgE5.browser_type = "msedge" ∧
    cfgE5.user_data_dir = some "/home/user/edge" ∧
    cfgE5.use_existing_browser = false ∧
    cfgE5.disable_security = true ∧
    launchArgLists (setup_standard_browser envE5 cfgE5).trace =
      [standardLaunchArgs ++ ["--no-private-window", "--no-incognito"]] ∧
    (standardLaunchArgs ++ ["--no-private-window", "--no-incognito"]).any
      (fun a => "--user-data-dir".toList.isPrefixOf a.toList) = false ∧
    "--disable-web-security" ∉
      standardLaunchArgs ++ ["--no-private-window", "--no-incognito"] := by
  refine ⟨rfl, rfl, rfl, rfl, by decide, by decide, by decide⟩

/-- Claim C5 as amended: in the msedge standard-launch path with a
user-data directory set and the reuse path not taken, a fresh temporary
profile directory is created, cookies and local storage are best-effort
copied into it, and Edge is launched via the discovered executable with
the base anti-detection flags, the extra arguments and the two
private-browsing-disable flags — but with NO user-data-dir argument
(Playwright manages its own profile; the temp profile only feeds the
storage-state lookup) and WITHOUT the disable-security flags; afterwards a
context is opened on any storage-state path discovered under the temp
profile. -/
theorem edge_profile_launch_amended (env : Env) (cfg : BrowserConfig)
    (p : String)
    (hbt : cfg.browser_type = "msedge")
    (hue : cfg.use_existing_browser = false)
    (hud : truthy cfg.user_data_dir = true)
    (hep : get_edge_path env = .ok p)
    (hcp : (copy_cookies_from_profile env (cfg.user_data_dir.getD "")
      env.tempName).1 = .ok ()) :
    setup_standard_browser env cfg =
      { result := .ok .launched,
        trace := .mkTempDir env.tempName ::
          (copy_cookies_from_profile env (cfg.user_data_dir.getD "")
            env.tempName).2 ++
          [.launch "chromium" (some p)
            (standardLaunchArgs ++ cfg.extra_chromium_args ++
             ["--no-private-window", "--no-incognito"]),
           .newContext (get_storage_state_path env env.tempName)],
        temp_dir := some env.tempName,
        contextCreated := true } := by
  cases hc : copy_cookies_from_profile env (cfg.user_data_dir.getD "")
    env.tempName with
  | mk cr ctr =>
    rw [hc] at hcp
    simp only at hcp
    subst hcp
    simp [setup_standard_browser, hbt, hue, hud, hep, hc]

set_option maxRecDepth 16000 in
/-- Closed instance of the amended msedge-profile-launch theorem on the
concrete Linux environment. -/
theorem edge_profile_launch_amended_witness :
    setup_standard_browser envE5 cfgE5 =
      { result := .ok .launched,
        trace := .mkTempDir envE5.tempName ::
          (copy_cookies_from_profile envE5 (cfgE5.user_data_dir.getD "")
            envE5.tempName).2 ++
          [.launch "chromium" (some "/usr/bin/microsoft-edge")
            (standardLaunchArgs ++ cfgE5.extra_chromium_args ++
             ["--no-private-window", "--no-incognito"]),
           .newContext (get_storage_state_path envE5 envE5.tempName)],
        temp_dir := some envE5.tempName,
        contextCreated := true } :=
  edge_profile_launch_amended envE5 cfgE5 "/usr/bin/microsoft-edge"
    rfl rfl (by decide) (by decide) (by decide)

/-- An environment whose operating system is unrecognized. -/
def envUnknownOS : Env :=
  { envE5 with system := "TempleOS", pathExists := fun _ => false }

/-- A Windows environment with no Edge install path present. -/
def envWinBare : Env :=
  { envE5 with system := "Windows", pathExists := fun _ => false }

/-- A macOS environment with no Edge install path present. -/
def envDarwinBare : Env :=
  { envE5 with system := "Darwin", pathExists := fun _ => false }

/-- Counterexample to claim C6: on macOS (`Darwin`), a supported platform,
discovery does NOT fail with the executable-not-found error when no known
install path exists — it returns the fixed app-bundle path without any
existence check. -/
theorem edge_path_darwin_cex :
    envDarwinBare.system = "Darwin" ∧
    ((windowsEdgePaths ++ darwinEdgePath :: linuxEdgePaths).all
      (fun p => ! envDarwinBare.pathExists p)) = true ∧
    get_edge_path envDarwinBare = .ok darwinEdgePath := ⟨rfl, rfl, rfl⟩

/-- Claim C6 as amended: an unrecognized operating-system string fails
with the OS-support error; on Windows and Linux, discovery with none of
the platform's known install paths present fails with the
executable-not-found error, and with exactly one present returns that
path; on macOS the fixed app-bundle path is returned unconditionally,
with no existence check. -/
theorem edge_path_discovery_amended (env : Env) (p : String) :
    (env.system ≠ "Windows" → env.system ≠ "Darwin" → env.system ≠ "Linux" →
      get_edge_path env =
        .error (.osError ("Unsupported operating system: " ++ env.system))) ∧
    (env.system = "Windows" →
      (∀ q ∈ windowsEdgePaths, env.pathExists q = false) →
      get_edge_path env = .error (.fileNotFound edgeNotFoundMsg)) ∧
    (env.system = "Linux" →
      (∀ q ∈ linuxEdgePaths, env.pathExists q = false) →
      get_edge_path env = .error (.fileNotFound edgeNotFoundMsg)) ∧
    (env.system = "Darwin" → get_edge_path env = .ok darwinEdgePath) ∧
    (env.system = "Windows" → windowsEdgePaths.filter env.pathExists = [p] →
      get_edge_path env = .ok p) ∧
    (env.system = "Linux" → linuxEdgePaths.filter env.pathExists = [p] →
      get_edge_path env = .ok p) := by
  refine ⟨?_, ?_, ?_, ?_, ?_, ?_⟩
  · intro h1 h2 h3
    simp [get_edge_path, h1, h2, h3]
  · intro hs hnone
    simp only [windowsEdgePaths, List.mem_cons, List.mem_singleton,
      List.not_mem_nil, forall_eq_or_imp, forall_eq] at hnone
    simp [get_edge_path, hs, windowsEdgePaths, List.find?, hnone.1, hnone.2.1]
  · intro hs hnone
    simp only [linuxEdgePaths, List.mem_cons, List.mem_singleton,
      List.not_mem_nil, forall_eq_or_imp, forall_eq] at hnone
    simp [get_edge_path, hs, linuxEdgePaths, List.find?, hnone.1, hnone.2.1,
      hnone.2.2.1]
  · intro hs
    simp [get_edge_path, hs]
  · intro hs hf
    cases h1 : env.pathExists (windowsEdgePaths.get ⟨0, by decide⟩) <;>
      cases h2 : env.pathExists (windowsEdgePaths.get ⟨1, by decide⟩) <;>
      simp [windowsEdgePaths, List.get] at h1 h2 <;>
      simp [windowsEdgePaths, List.filter, h1, h2] at hf <;>
      subst hf <;>
      simp [get_edge_path, hs, windowsEdgePaths, List.find?, h1, h2]
  · intro hs hf
    cases h1 : env.pathExists (linuxEdgePaths.get ⟨0, by decide⟩) <;>
      cases h2 : env.pathExists (linuxEdgePaths.get ⟨1, by decide⟩) <;>
      cases h3 : env.pathExists (linuxEdgePaths.get ⟨2, by decide⟩) <;>
      simp [linuxEdgePaths, List.get] at h1 h2 h3 <;>
      simp [linuxEdgePaths, List.filter, h1, h2, h3] at hf <;>
      subst hf <;>
      simp [get_edge_path, hs, linuxEdgePaths, List.find?, h1, h2, h3]

/-- Closed instance of the amended discovery theorem on each branch:
unknown OS, bare Windows, bare macOS, and Linux with exactly one install. -/
theorem edge_path_discovery_amended_witness :
    get_edge_path envUnknownOS =
      .error (.osError ("Unsupported operating system: " ++
        envUnknownOS.system)) ∧
    get_edge_path envWinBare = .error (.fileNotFound edgeNotFoundMsg) ∧
    get_edge_path envDarwinBare = .ok darwinEdgePath ∧
    get_edge_path envE5 = .ok "/usr/bin/microsoft-edge" :=
  ⟨(edge_path_discovery_amended envUnknownOS "").1 (by decide) (by decide)
      (by decide),
   (edge_path_discovery_amended envWinBare "").2.1 rfl
      (by intro q hq; rfl),
   (edge_path_discovery_amended envDarwinBare "").2.2.2.1 rfl,
   (edge_path_discovery_amended envE5 "/usr/bin/microsoft-edge").2.2.2.2.2 rfl
      (by decide)⟩

/-- An environment whose debug endpoint never becomes reachable
(every probe raises `ConnectionError`) but whose CDP attach succeeds. -/
def envNever200 : Env := { envE5 with probe := fun _ => .connError }

/-- With every probe refusing the connection, the 10-attempt poll loop
exhausts its budget, probing and sleeping once per attempt. -/
theorem instLoop_connError (env : Env)
    (h : ∀ n, env.probe n = ProbeResult.connError) :
    ∀ n idx, instLoop env n idx = (.exhausted, probeSleeps n) := by
  intro n
  induction n with
  | zero => intro idx; rfl
  | succ m ih =>
    intro idx
    simp [instLoop, h idx, ih (idx + 1), probeSleeps]

/-- Counterexample to claim C7: when the debug endpoint never responds
within the poll budget, NO timeout error is surfaced — the code attempts
a final CDP attach anyway, and here that attach succeeds, so the call
returns a browser. -/
theorem instance_poll_no_timeout_cex :
    envNever200.probe 0 = ProbeResult.connError ∧
    (instLoop envNever200 10 1).1 = LoopRes.exhausted ∧
    (setup_browser_with_instance envNever200 cfgInst).result =
      .ok (.connected debugEndpoint) := ⟨rfl, rfl, rfl⟩

/-- Claim C7 as amended: with an explicit executable path, a 200 on the
first probe attaches over CDP with no spawn; if the endpoint never
responds (connection refused throughout), the executable is spawned, the
endpoint is polled 10 times at 1-second spacing, and then a final CDP
attach is attempted regardless — only if that attach fails is an error
surfaced, namely the fatal `RuntimeError` telling the user to close
existing Chrome instances; no other connection strategy is attempted
either way. -/
theorem instance_reuse_amended (env : Env) (cfg : BrowserConfig)
    (hp : truthy cfg.chrome_instance_path = true) :
    (env.probe 0 = .ok 200 →
      (setup_browser_with_instance env cfg).trace =
        [.probe, .connectCDP debugEndpoint] ∧
      (setup_browser_with_instance env cfg).result =
        (if env.cdpOk then .ok (.connected debugEndpoint)
         else .error .connectFailed)) ∧
    ((∀ n, env.probe n = ProbeResult.connError) →
      (setup_browser_with_instance env cfg).trace =
        .probe :: .spawn (cfg.chrome_instance_path.getD "" ::
            "--remote-debugging-port=9222" :: cfg.extra_chromium_args) ::
          probeSleeps 10 ++ [.connectCDP debugEndpoint] ∧
      (setup_browser_with_instance env cfg).result =
        (if env.cdpOk then .ok (.connected debugEndpoint)
         else .error (.runtimeError chromeRestartMsg))) := by
  constructor
  · intro h0
    constructor <;> simp [setup_browser_with_instance, hp, h0]
  · intro h
    have hl := instLoop_connError env h 10 1
    constructor <;>
      simp [setup_browser_with_instance, hp, h 0, instSpawn, hl]

/-- Closed instance of the amended local-executable theorem on the
never-reachable environment. -/
theorem instance_reuse_amended_witness :
    (setup_browser_with_instance envNever200 cfgInst).trace =
      .probe :: .spawn (cfgInst.chrome_instance_path.getD "" ::
          "--remote-debugging-port=9222" :: cfgInst.extra_chromium_args) ::
        probeSleeps 10 ++ [.connectCDP debugEndpoint] ∧
    (setup_browser_with_instance envNever200 cfgInst).result =
      (if envNever200.cdpOk then .ok (.connected debugEndpoint)
       else .error (.runtimeError chromeRestartMsg)) :=
  (instance_reuse_amended envNever200 cfgInst (by decide)).2 (fun _ => rfl)

/-- An Edge-reuse environment whose endpoint always answers with a
non-200 status. -/
def envE8 : Env := { envE5 with probe := fun _ => .ok 500 }

/-- The msedge configuration taking the Edge-reuse path. -/
def cfgE8 : BrowserConfig := { cfgE5 with use_existing_browser := true }

/-- With every probe refusing the connection, the 30-attempt Edge poll
loop exhausts its budget, sleeping 1 second after each attempt. -/
theorem edgeLoop_connError (env : Env)
    (h : ∀ n, env.probe n = ProbeResult.connError) :
    ∀ n idx, edgeLoop env n idx = (.exhausted, probeSleeps n) := by
  intro n
  induction n with
  | zero => intro idx; rfl
  | succ m ih =>
    intro idx
    simp [edgeLoop, h idx, ih (idx + 1), probeSleeps]

/-- With every probe answering a fixed non-200 status, the Edge poll loop
exhausts its budget probing back-to-back, with NO sleep between attempts. -/
theorem edgeLoop_non200 (env : Env) (s : Nat) (hs : s ≠ 200)
    (h : ∀ n, env.probe n = ProbeResult.ok s) :
    ∀ n idx, edgeLoop env n idx = (.exhausted, probesOnly n) := by
  intro n
  induction n with
  | zero => intro idx; rfl
  | succ m ih =>
    intro idx
    simp [edgeLoop, h idx, hs, ih (idx + 1), probesOnly]

/-- Counterexample to claim C8: with the endpoint answering non-200, the
Edge poll makes 31 consecutive probe attempts (1 reuse check + 30 loop
attempts) with ZERO 1-second suspensions between them — `time.sleep(1)`
sits inside the `except ConnectionError` handler only — before raising
the timeout error. -/
theorem edge_poll_busy_wait_cex :
    ((connect_to_existing_edge envE8 cfgE8).trace.filter isProbe).length
      = 31 ∧
    ((connect_to_existing_edge envE8 cfgE8).trace.filter isSleep).length
      = 0 ∧
    (connect_to_existing_edge envE8 cfgE8).result =
      .error (.timeoutError edgeTimeoutMsg) := ⟨rfl, rfl, rfl⟩

/-- Claim C8 as amended: after spawning Edge the version-info endpoint is
polled at most 30 times and exhaustion of the budget without a 200 raises
the timeout error; but the fixed 1-second suspension happens only after a
probe that fails with `ConnectionError` — a probe answered with a non-200
status is retried immediately, with no suspension between consecutive
attempts. -/
theorem edge_poll_amended (env : Env) (cfg : BrowserConfig) (p : String)
    (s : Nat) (hep : get_edge_path env = .ok p) :
    (env.probe 0 = .ok 200 →
      (connect_to_existing_edge env cfg).trace =
        [.probe, .connectCDP debugEndpoint]) ∧
    ((∀ n, env.probe n = ProbeResult.connError) →
      (connect_to_existing_edge env cfg).trace =
        .probe :: .spawn [p, "--remote-debugging-port=9222",
          "--user-data-dir=" ++ cfg.user_data_dir.getD "",
          "--no-first-run"] :: probeSleeps 30 ∧
      (connect_to_existing_edge env cfg).result =
        .error (.timeoutError edgeTimeoutMsg)) ∧
    (s ≠ 200 → (∀ n, env.probe n = ProbeResult.ok s) →
      (connect_to_existing_edge env cfg).trace =
        .probe :: .spawn [p, "--remote-debugging-port=9222",
          "--user-data-dir=" ++ cfg.user_data_dir.getD "",
          "--no-first-run"] :: probesOnly 30 ∧
      (connect_to_existing_edge env cfg).result =
        .error (.timeoutError edgeTimeoutMsg)) := by
  refine ⟨?_, ?_, ?_⟩
  · intro h0
    simp [connect_to_existing_edge, h0]
  · intro h
    have hl := edgeLoop_connError env h 30 1
    constructor <;>
      simp [connect_to_existing_edge, h 0, edgeSpawnAndPoll, hep, hl]
  · intro hs h
    have hl := edgeLoop_non200 env s hs h 30 1
    constructor <;>
      simp [connect_to_existing_edge, h 0, hs, edgeSpawnAndPoll, hep, hl]

/-- Closed instance of the amended Edge-poll theorem: the non-200
busy-wait branch on the concrete Linux environment. -/
theorem edge_poll_amended_witness :
    (connect_to_existing_edge envE8 cfgE8).trace =
      .probe :: .spawn ["/usr/bin/microsoft-edge",
        "--remote-debugging-port=9222",
        "--user-data-dir=" ++ cfgE8.user_data_dir.getD "",
        "--no-first-run"] :: probesOnly 30 ∧
    (connect_to_existing_edge envE8 cfgE8).result =
      .error (.timeoutError edgeTimeoutMsg) :=
  (edge_poll_amended envE8 cfgE8 "/usr/bin/microsoft-edge" 500
    (by decide)).2.2 (by decide) (fun _ => rfl)

/-- One cookie-file iteration returns normally whenever directory
creation succeeds, whether or not the source exists or the copy fails. -/
theorem copyCookieFile_ok (env : Env) (src tgt fp : String)
    (hm : ∀ d, env.mkdirOk d = true) :
    (copyCookieFile env src tgt fp).1 = .ok () := by
  cases hpe : env.pathExists fp <;> simp [copyCookieFile, hpe, hm]
  cases hco : env.copyOk fp <;> simp [hco]

/-- The cookie-file loop returns normally whenever directory creation
succeeds. -/
theorem copyCookieFiles_ok (env : Env) (src tgt : String)
    (hm : ∀ d, env.mkdirOk d = true) :
    ∀ l, (copyCookieFiles env src tgt l).1 = .ok ()
  | [] => rfl
  | fp :: rest => by
    have h1 := copyCookieFile_ok env src tgt fp hm
    have h2 := copyCookieFiles_ok env src tgt hm rest
    cases hc : copyCookieFile env src tgt fp with
    | mk r tr =>
      rw [hc] at h1
      simp only at h1
      subst h1
      cases hcs : copyCookieFiles env src tgt rest with
      | mk r2 tr2 =>
        rw [hcs] at h2
        simp only at h2
        subst h2
        simp [copyCookieFiles, hc, hcs]

/-- Claim C9: for every source profile — in particular one missing any or
all of the known cookie files and local-storage directories — and for any
pattern of individual copy failures, `_copy_cookies_from_profile`
completes without raising (given that target-directory creation itself
succeeds, which the claim presupposes): missing sources are skipped and
copy failures are caught and logged, never propagated. When no source
path exists at all, the temp profile is left empty (only its root
directory is created). -/
theorem profile_copy_total (env : Env) (src tgt : String)
    (hm : ∀ d, env.mkdirOk d = true) :
    (copy_cookies_from_profile env src tgt).1 = .ok () ∧
    ((∀ q, env.pathExists q = false) →
      (copy_cookies_from_profile env src tgt).2 = [.makedirs tgt]) := by
  constructor
  · have h := copyCookieFiles_ok env src tgt hm (cookieSources src)
    cases hc : copyCookieFiles env src tgt (cookieSources src) with
    | mk r tr =>
      rw [hc] at h
      simp only at h
      subst h
      simp [copy_cookies_from_profile, hm, hc]
  · intro hq
    simp [copy_cookies_from_profile, hm, copyCookieFiles, copyCookieFile,
      hq, cookieSources, localStoragePaths, copyLocalStorage]

/-- An environment in which every source path exists but every copy
operation fails. -/
def envCopyFail : Env :=
  { envE5 with
    pathExists := fun _ => true
    isDir := fun _ => true
    copyOk := fun _ => false
    treeOk := fun _ => false }

/-- Closed instance of the profile-copy theorem: an entirely missing
source profile yields a normal return and an empty temp profile, and a
profile whose every copy fails still returns normally. -/
theorem profile_copy_total_witness :
    (copy_cookies_from_profile envDarwinBare "/home/user/edge" "TMPPROF").1
      = .ok () ∧
    (copy_cookies_from_profile envDarwinBare "/home/user/edge" "TMPPROF").2
      = [.makedirs "TMPPROF"] ∧
    (copy_cookies_from_profile envCopyFail "/home/user/edge" "TMPPROF").1
      = .ok () :=
  ⟨(profile_copy_total envDarwinBare "/home/user/edge" "TMPPROF"
      (fun _ => rfl)).1,
   (profile_copy_total envDarwinBare "/home/user/edge" "TMPPROF"
      (fun _ => rfl)).2 (fun _ => rfl),
   (profile_copy_total envCopyFail "/home/user/edge" "TMPPROF"
      (fun _ => rfl)).1⟩

/-- When its next probe raises an uncaught exception, the 10-attempt poll
loop propagates it immediately. -/
theorem instLoop_raised (env : Env) (n idx : Nat)
    (h : env.probe idx = ProbeResult.otherError) :
    instLoop env (n + 1) idx = (.raised, [.probe]) := by
  simp [instLoop, h]

/-- When its next probe raises an uncaught exception, the 30-attempt Edge
poll loop propagates it immediately. -/
theorem edgeLoop_raised (env : Env) (n idx : Nat)
    (h : env.probe idx = ProbeResult.otherError) :
    edgeLoop env (n + 1) idx = (.raised, [.probe]) := by
  simp [edgeLoop, h]

/-- Claim C10: in both probe loops only `requests.ConnectionError` is
treated as "browser not yet reachable". A probe raising any other
exception makes initialization fail with that exception — at the first
probe nothing further is attempted (no spawn), and inside the retry loop
the loop aborts with the error; a probe answered with a non-200 status
silently falls through to the spawn/launch branch. -/
theorem probe_exception_policy (env : Env) (cfg : BrowserConfig) (s : Nat)
    (p : String) :
    (env.probe 0 = ProbeResult.otherError →
      (truthy cfg.chrome_instance_path = true →
        setup_browser_with_instance env cfg =
          { result := .error .probeError, trace := [.probe] }) ∧
      connect_to_existing_edge env cfg =
        { result := .error .probeError, trace := [.probe] }) ∧
    (env.probe 0 = ProbeResult.ok s → s ≠ 200 →
      (truthy cfg.chrome_instance_path = true →
        (setup_browser_with_instance env cfg).trace.any isSpawn = true) ∧
      (get_edge_path env = .ok p →
        (connect_to_existing_edge env cfg).trace.any isSpawn = true)) ∧
    (env.probe 0 = ProbeResult.connError →
      env.probe 1 = ProbeResult.otherError →
      (truthy cfg.chrome_instance_path = true →
        (setup_browser_with_instance env cfg).result = .error .probeError) ∧
      (get_edge_path env = .ok p →
        (connect_to_existing_edge env cfg).result = .error .probeError)) := by
  refine ⟨?_, ?_, ?_⟩
  · intro h0
    constructor
    · intro hp
      simp [setup_browser_with_instance, hp, h0]
    · simp [connect_to_existing_edge, h0]
  · intro h0 hs
    constructor
    · intro hp
      rcases hl : instLoop env 10 1 with ⟨r, tr⟩
      cases r <;>
        simp [setup_browser_with_instance, hp, h0, hs, instSpawn, hl, isSpawn]
    · intro hep
      rcases hl : edgeLoop env 30 1 with ⟨r, tr⟩
      cases r <;>
        simp [connect_to_existing_edge, h0, hs, edgeSpawnAndPoll, hep, hl,
          isSpawn]
  · intro h0 h1
    have hi : instLoop env 10 1 = (.raised, [.probe]) :=
      instLoop_raised env 9 1 h1
    have he : edgeLoop env 30 1 = (.raised, [.probe]) :=
      edgeLoop_raised env 29 1 h1
    constructor
    · intro hp
      simp [setup_browser_with_instance, hp, h0, instSpawn, hi]
    · intro hep
      simp [connect_to_existing_edge, h0, edgeSpawnAndPoll, hep, he]

/-- An environment whose every probe raises an uncaught exception. -/
def envOther : Env := { envE5 with probe := fun _ => .otherError }

/-- An environment whose first probe is refused and whose second raises
an uncaught exception. -/
def envMix : Env :=
  { envE5 with probe := fun n => if n = 0 then .connError else .otherError }

/-- Closed instance of the probe-exception-policy theorem on concrete
environments for each branch. -/
theorem probe_exception_policy_witness :
    setup_browser_with_instance envOther cfgInst =
      { result := .error .probeError, trace := [.probe] } ∧
    connect_to_existing_edge envOther cfgE8 =
      { result := .error .probeError, trace := [.probe] } ∧
    (setup_browser_with_instance envE8 cfgInst).trace.any isSpawn = true ∧
    (connect_to_existing_edge envE8 cfgE8).trace.any isSpawn = true ∧
    (setup_browser_with_instance envMix cfgInst).result =
      .error .probeError ∧
    (connect_to_existing_edge envMix cfgE8).result = .error .probeError :=
  ⟨((probe_exception_policy envOther cfgInst 0 "").1 rfl).1 (by decide),
   ((probe_exception_policy envOther cfgE8 0 "").1 rfl).2,
   ((probe_exception_policy envE8 cfgInst 500 "").2.1 rfl (by decide)).1
     (by decide),
   ((probe_exception_policy envE8 cfgE8 500
       "/usr/bin/microsoft-edge").2.1 rfl (by decide)).2 (by decide),
   ((probe_exception_policy envMix cfgInst 0 "").2.2 rfl rfl).1 (by decide),
   ((probe_exception_policy envMix cfgE8 0
       "/usr/bin/microsoft-edge").2.2 rfl rfl).2 (by decide)⟩

end JarvisBrowser
